import Mathlib

/-!
Shallow embedding of the sorting-visualizer application core
(`src/main.py`, class `SortingVisualizerApp` plus the module-level
mode registry).  The Orchestrator's handlers are translated as pure
state-transition functions over an explicit `AppState`; side effects
(stop calls, draw calls, status writes, ...) are recorded in an event
trace so that ordering and no-op claims can be stated.

The visualizer implementations (`core.controls`, `visualizers.*`) are
not part of the repository snapshot under `src/`; the parts of their
behaviour that the Orchestrator claims depend on are modelled from the
specification and marked as such in their doc comments.
-/

namespace SortViz

/-- Constant `DEFAULT_DATA_SIZE` from `src/main.py`. -/
def DEFAULT_DATA_SIZE : Nat := 15

/-- Constant `QUICK_SORT_MAX_SIZE` from `src/main.py`. -/
def QUICK_SORT_MAX_SIZE : Nat := 8

/-- Constant `MERGE_SORT_MAX_SIZE` from `src/main.py`. -/
def MERGE_SORT_MAX_SIZE : Nat := 8

/-- Constant `HEAP_SORT_MAX_SIZE` from `src/main.py`. -/
def HEAP_SORT_MAX_SIZE : Nat := 10

/-- Modelled from the spec: the lazy AlgorithmStep producer created by a
visualizer's `sort()` (the visualizer modules are not under `src/`).
Per spec section 4.1 / 9 it is a cursor object built from the initial array
and the optional algorithm selector; `pos` is the cursor position (the
number of steps already consumed). -/
structure Producer where
  arr : List Nat
  algo : Option String
  pos : Nat
deriving DecidableEq

/-- Modelled from the spec: `VisualizerState` (spec section 3) of the
concrete visualizers, whose sources are not under `src/`.  The fields
`is_running`, `is_paused`, `_current_generator`, `data` and `on_complete`
are the ones `src/main.py` accesses directly; `current_generator` is the
suspended producer handle. -/
structure Visualizer where
  data : List Nat
  initial_data : List Nat
  is_running : Bool
  is_paused : Bool
  step_mode : Bool
  delay : Nat
  current_generator : Option Producer
  completed : Bool
  on_complete_wired : Bool
deriving DecidableEq

/-- Modelled from the spec: visualizer construction (`visualizer_class(self.canvas, data_to_use)`)
wraps the handed array; flags start cleared, no producer exists yet. -/
def mkVisualizer (d : List Nat) : Visualizer :=
  { data := d
    initial_data := d
    is_running := false
    is_paused := false
    step_mode := false
    delay := 100
    current_generator := none
    completed := false
    on_complete_wired := false }

/-- Modelled from the spec: `canResume()` is true iff a producer exists and
is currently suspended (spec section 4.2; an exhausted producer's handle is
cleared, so existence implies non-exhaustion). -/
def Visualizer.can_resume (v : Visualizer) : Bool :=
  v.current_generator.isSome && v.is_paused

/-- Modelled from the spec: `sort(algorithmId?)` is a no-op while already
running; otherwise it resumes a suspended producer if one exists, else it
constructs a fresh producer from the current array and the selector and
marks the state running (spec section 4.2). -/
def Visualizer.sort (v : Visualizer) (algo : Option String) : Visualizer :=
  if v.is_running then v
  else
    match v.current_generator with
    | some _ => { v with is_running := true, is_paused := false }
    | none =>
        { v with
            current_generator := some { arr := v.data, algo := algo, pos := 0 }
            is_running := true
            is_paused := false }

/-- Modelled from the spec: `stop()` requests suspension without discarding
producer state; it is idempotent and makes `canResume()` true when a
producer exists (spec section 4.2). -/
def Visualizer.stop (v : Visualizer) : Visualizer :=
  { v with is_running := false, is_paused := v.current_generator.isSome }

/-- Modelled from the spec: `reset(newArray?)` discards any suspended
producer, restores (or replaces) the array, and clears the
running/paused/completion flags (spec section 4.2). -/
def Visualizer.reset (v : Visualizer) (newArr : Option (List Nat)) : Visualizer :=
  let a := newArr.getD v.initial_data
  { v with
      data := a
      initial_data := a
      current_generator := none
      is_running := false
      is_paused := false
      completed := false }

/-- Modelled from the spec: `step()` is valid only in step mode and advances
the suspended producer by exactly one step (spec section 4.2). -/
def Visualizer.step (v : Visualizer) : Visualizer :=
  if v.step_mode then
    match v.current_generator with
    | some g => { v with current_generator := some { g with pos := g.pos + 1 } }
    | none => v
  else v

/-- Modelled from the spec: `setStepMode(bool)` configuration mutator. -/
def Visualizer.set_step_mode (v : Visualizer) (b : Bool) : Visualizer :=
  { v with step_mode := b }

/-- Modelled from the spec: `setDelay(ms)` configuration mutator. -/
def Visualizer.set_delay (v : Visualizer) (n : Nat) : Visualizer :=
  { v with delay := n }

/-- One entry of the `MODE_CONFIGS` table of `src/main.py`. -/
structure ModeConfig where
  title : String
  visualizer_class : String
  max_size : Option Nat
  has_algorithm_selection : Bool
  module : Option String
deriving DecidableEq

/-- The `basic` entry of `MODE_CONFIGS` in `src/main.py`. -/
def basicCfg : ModeConfig :=
  { title := "기본 정렬 알고리즘"
    visualizer_class := "BarVisualizer"
    max_size := none
    has_algorithm_selection := true
    module := none }

/-- The `quick` entry of `MODE_CONFIGS` in `src/main.py`. -/
def quickCfg : ModeConfig :=
  { title := "퀵 정렬 (Quick Sort)"
    visualizer_class := "QuickSortVisualizer"
    max_size := some QUICK_SORT_MAX_SIZE
    has_algorithm_selection := false
    module := some "visualizers.quick_visualizer" }

/-- The `merge` entry of `MODE_CONFIGS` in `src/main.py`. -/
def mergeCfg : ModeConfig :=
  { title := "병합 정렬 (Merge Sort)"
    visualizer_class := "MergeSortVisualizer"
    max_size := some MERGE_SORT_MAX_SIZE
    has_algorithm_selection := false
    module := some "visualizers.merge_visualizer" }

/-- The `heap` entry of `MODE_CONFIGS` in `src/main.py`. -/
def heapCfg : ModeConfig :=
  { title := "힙 정렬 (Heap Sort)"
    visualizer_class := "HeapSortVisualizer"
    max_size := some HEAP_SORT_MAX_SIZE
    has_algorithm_selection := false
    module := some "visualizers.heap_visualizer" }

/-- The `MODE_CONFIGS` registry of `src/main.py`, as an association list
keyed by mode id. -/
def MODE_CONFIGS : List (String × ModeConfig) :=
  [("basic", basicCfg), ("quick", quickCfg), ("merge", mergeCfg),
   ("heap", heapCfg)]

/-- Modelled from the spec: the `ControlPanel` of `core.controls` (not under
`src/`), reduced to the state `src/main.py` reads and writes: the step-mode
checkbox, `algorithm_var`, the running state set by `set_running_state`, and
whether an algorithm-change callback was wired. -/
structure Controls where
  has_algorithm_change : Bool
  algorithm_var : String
  step_mode_var : Bool
  running_state : Bool
deriving DecidableEq

/-- Modelled from the spec: control-panel construction with default widget
values; `on_algorithm_change` is wired iff the mode offers algorithm
selection. -/
def mkControls (hasAlgo : Bool) : Controls :=
  { has_algorithm_change := hasAlgo
    algorithm_var := "bubble"
    step_mode_var := false
    running_state := false }

/-- Observable side effects of the Orchestrator's handlers, recorded as an
event trace: calls into the current/new visualizer, control-panel and
canvas operations, and status/title writes. -/
inductive Ev where
  | stopVis
  | setTitle (t : String)
  | clearControls
  | createControls
  | createVis (d : List Nat)
  | wireComplete
  | drawVis
  | setStatus (msg : String)
  | clearCanvas
  | drawPlaceholder (name : String)
  | setRunning (b : Bool)
  | resumeRun
  | sortCall (algo : Option String)
  | resetVis
  | stepVis
  | setDelay (n : Nat)
  | setStepModeEv (b : Bool)
deriving DecidableEq

/-- State of the `SortingVisualizerApp` Orchestrator: the registry (a
read-only module-level global in the source, carried in the state so that
its preservation can be stated), `current_mode`, the active visualizer,
the master dataset `data`, the displayed title and status text, and the
control panel. -/
structure AppState where
  mode_configs : List (String × ModeConfig)
  current_mode : Option String
  visualizer : Option Visualizer
  data : List Nat
  title : String
  status : String
  controls : Controls
deriving DecidableEq

/-- `data_to_use = self.data[:max_size] if max_size else self.data`
(lines 179-180 and 317-318 of `src/main.py`); Python truthiness means a
`None` (and a zero) cap leaves the data whole. -/
def dataToUse (data : List Nat) (max_size : Option Nat) : List Nat :=
  match max_size with
  | none => data
  | some n => if n = 0 then data else data.take n

/-- `_stop_current` (`src/main.py` lines 252-255): stop the current
visualizer if one exists. -/
def stopCurrent (s : AppState) : AppState × List Ev :=
  match s.visualizer with
  | none => (s, [])
  | some v => ({ s with visualizer := some v.stop }, [Ev.stopVis])

/-- The status line written by a successful mode switch
(`src/main.py` line 187). -/
def switchStatus (title : String) (n : Nat) : String :=
  title ++ " | 데이터 크기: " ++ toString n

/-- The status line written by `_show_not_implemented`
(`src/main.py` line 250). -/
def notImplStatus (name : String) : String :=
  name ++ " - 아직 구현되지 않았습니다"

/-- `_switch_to_mode` (`src/main.py` lines 143-190).  A mode id absent from
the registry returns immediately.  Otherwise: stop the current visualizer,
set `current_mode` and the title, clear the control frame, then try to load
the visualizer class; `loadOk` tells whether a given module import succeeds
(`ImportError` is possible only for modes that name a module).  On success:
build the control panel, truncate the dataset, construct the visualizer,
wire `on_complete`, draw, and write the status.  On `ImportError`:
`_show_not_implemented` clears the canvas, draws a placeholder and writes
the status; nothing else is touched. -/
def switchToMode (loadOk : String → Bool) (mode : String) (s : AppState) :
    AppState × List Ev :=
  match List.lookup mode s.mode_configs with
  | none => (s, [])
  | some config =>
      let p := stopCurrent s
      let s2 := { p.1 with current_mode := some mode, title := config.title }
      let tr2 := p.2 ++ [Ev.setTitle config.title, Ev.clearControls]
      let ok := match config.module with
                | none => true
                | some m => loadOk m
      if ok then
        let d := dataToUse s2.data config.max_size
        let v := { mkVisualizer d with on_complete_wired := true }
        let msg := switchStatus config.title d.length
        ({ s2 with
             controls := mkControls config.has_algorithm_selection
             visualizer := some v
             status := msg },
         tr2 ++ [Ev.createControls, Ev.createVis d, Ev.wireComplete,
                 Ev.drawVis, Ev.setStatus msg])
      else
        let msg := notImplStatus config.title
        ({ s2 with status := msg },
         tr2 ++ [Ev.clearCanvas, Ev.drawPlaceholder config.title,
                 Ev.setStatus msg])

/-- Modelled from the spec: `BarVisualizer.ALGORITHM_NAMES.get(a, a)`
(the `BarVisualizer` module is not under `src/`); the display name defaults
to the id itself, which is all the claims depend on. -/
def algoDisplayName (a : String) : String := a

/-- `_start_sort` (`src/main.py` lines 257-279) together with
`_resume_visualization` (lines 281-284).  Guarded on a visualizer being
present; reads `MODE_CONFIGS[self.current_mode]`, which raises `KeyError`
(modelled as `none`) when `current_mode` is absent from the registry. -/
def startSort (s : AppState) : Option (AppState × List Ev) :=
  match s.visualizer with
  | none => some (s, [])
  | some v =>
      match s.current_mode.bind (fun m => List.lookup m s.mode_configs) with
      | none => none
      | some config =>
          let v1 := v.set_step_mode s.controls.step_mode_var
          let c1 := { s.controls with running_state := true }
          let tr0 := [Ev.setStepModeEv s.controls.step_mode_var,
                      Ev.setRunning true]
          if v1.can_resume then
            let v2 := { v1 with is_paused := false, is_running := true }
            let resumeTr :=
              if v2.current_generator.isSome then [Ev.resumeRun] else []
            let msg := "재개됨: " ++ config.title
            some ({ s with visualizer := some v2, controls := c1, status := msg },
                  tr0 ++ resumeTr ++ [Ev.setStatus msg])
          else
            if config.has_algorithm_selection then
              let a := s.controls.algorithm_var
              let v2 := v1.sort (some a)
              let msg := "실행 중: " ++ algoDisplayName a
              some ({ s with visualizer := some v2, controls := c1, status := msg },
                    tr0 ++ [Ev.sortCall (some a), Ev.setStatus msg])
            else
              let v2 := v1.sort none
              let msg := "실행 중: " ++ config.title
              some ({ s with visualizer := some v2, controls := c1, status := msg },
                    tr0 ++ [Ev.sortCall none, Ev.setStatus msg])

/-- `_stop_sort` (`src/main.py` lines 286-291). -/
def stopSort (s : AppState) : AppState × List Ev :=
  match s.visualizer with
  | none => (s, [])
  | some v =>
      let msg := "일시정지됨 (시작 버튼으로 재개)"
      ({ s with
           visualizer := some v.stop
           controls := { s.controls with running_state := false }
           status := msg },
       [Ev.stopVis, Ev.setRunning false, Ev.setStatus msg])

/-- The status line written by `_reset_sort` (`src/main.py` line 298). -/
def resetStatus (n : Nat) : String :=
  "리셋됨 | 데이터 크기: " ++ toString n

/-- `_reset_sort` (`src/main.py` lines 293-298); the reported size is
`len(self.visualizer.data)` after the reset. -/
def resetSort (s : AppState) : AppState × List Ev :=
  match s.visualizer with
  | none => (s, [])
  | some v =>
      let v2 := v.reset none
      let msg := resetStatus v2.data.length
      ({ s with
           visualizer := some v2
           controls := { s.controls with running_state := false }
           status := msg },
       [Ev.resetVis, Ev.setRunning false, Ev.setStatus msg])

/-- `_step_sort` (`src/main.py` lines 300-303). -/
def stepSort (s : AppState) : AppState × List Ev :=
  match s.visualizer with
  | none => (s, [])
  | some v => ({ s with visualizer := some v.step }, [Ev.stepVis])

/-- `_change_speed` (`src/main.py` lines 305-308). -/
def changeSpeed (speed : Nat) (s : AppState) : AppState × List Ev :=
  match s.visualizer with
  | none => (s, [])
  | some v => ({ s with visualizer := some (v.set_delay speed) }, [Ev.setDelay speed])

/-- The status line written by `_generate_data` (`src/main.py` line 321). -/
def generateStatus (n : Nat) : String :=
  "새 데이터 생성됨 | 크기: " ++ toString n

/-- `_generate_data` (`src/main.py` lines 310-321).  `gen` stands for
`generate_random_data` of `core.controls` (not under `src/`; per spec a
pure `(size) -> Dataset` function).  The master dataset is always replaced
in full; with a visualizer present, the registry entry for the current mode
is read (`KeyError`, modelled `none`, when absent) and only the truncated
copy is handed to `reset`. -/
def generateData (gen : Nat → List Nat) (size : Nat) (s : AppState) :
    Option (AppState × List Ev) :=
  let newData := gen size
  let s1 := { s with data := newData }
  match s1.visualizer with
  | none => some (s1, [])
  | some v =>
      match s1.current_mode.bind (fun m => List.lookup m s1.mode_configs) with
      | none => none
      | some config =>
          let d := dataToUse s1.data config.max_size
          let msg := generateStatus d.length
          some ({ s1 with visualizer := some (v.reset (some d)), status := msg },
                [Ev.resetVis, Ev.setStatus msg])

/-- `_change_algorithm` (`src/main.py` lines 323-327): with a visualizer
present and mode `basic`, only the status text is written. -/
def changeAlgorithm (algorithm : String) (s : AppState) : AppState × List Ev :=
  if s.visualizer.isSome ∧ s.current_mode = some "basic" then
    let msg := "알고리즘 변경: " ++ algoDisplayName algorithm
    ({ s with status := msg }, [Ev.setStatus msg])
  else (s, [])

/-- `__init__` (`src/main.py` lines 57-74): generate the default-size
dataset, set the initial title and the hard-coded initial status, then
switch to mode `basic`. -/
def initApp (gen : Nat → List Nat) (loadOk : String → Bool) :
    AppState × List Ev :=
  let s0 : AppState :=
    { mode_configs := MODE_CONFIGS
      current_mode := none
      visualizer := none
      data := gen DEFAULT_DATA_SIZE
      title := "기본 정렬 알고리즘"
      status := "준비됨 | 데이터 크기: 15"
      controls := mkControls false }
  switchToMode loadOk "basic" s0

/-- Length of the array held by the active visualizer (0 when none). -/
def visLen (s : AppState) : Nat :=
  match s.visualizer with
  | none => 0
  | some v => v.data.length

/-- `xs` occurs as a (not necessarily contiguous) subsequence of `ys`. -/
def isSubseqOf : List Ev → List Ev → Bool
  | [], _ => true
  | _ :: _, [] => false
  | a :: l, b :: m => if a = b then isSubseqOf l m else isSubseqOf (a :: l) m

/-- One UI intent routed through the Orchestrator, used to quantify over
all operations of the application. -/
inductive Action where
  | switchMode (loadOk : String → Bool) (m : String)
  | startA
  | stopA
  | resetA
  | stepA
  | speedA (n : Nat)
  | genA (gen : Nat → List Nat) (n : Nat)
  | algoA (a : String)

/-- Dispatch of a UI intent to its handler; `none` is an uncaught
exception. -/
def applyAction : Action → AppState → Option (AppState × List Ev)
  | .switchMode lo m, s => some (switchToMode lo m s)
  | .startA, s => startSort s
  | .stopA, s => some (stopSort s)
  | .resetA, s => some (resetSort s)
  | .stepA, s => some (stepSort s)
  | .speedA n, s => some (changeSpeed n s)
  | .genA g n, s => generateData g n s
  | .algoA a, s => some (changeAlgorithm a s)

/-- A 15-element dataset used as a concrete input. -/
def sampleData : List Nat := [5, 3, 1, 4, 2, 15, 14, 13, 12, 11, 10, 9, 8, 7, 6]

/-- A concrete reachable-shaped application state in mode `quick` holding a
15-element master dataset. -/
def sampleApp : AppState :=
  { mode_configs := MODE_CONFIGS
    current_mode := some "quick"
    visualizer := some { mkVisualizer (sampleData.take 8) with on_complete_wired := true }
    data := sampleData
    title := quickCfg.title
    status := switchStatus quickCfg.title 8
    controls := mkControls false }

/-- A paused visualizer holding a suspended producer at position 2. -/
def pausedVis : Visualizer :=
  { mkVisualizer [3, 1, 2] with
      is_paused := true
      current_generator := some { arr := [3, 1, 2], algo := none, pos := 2 } }

/-- A concrete application state in mode `quick` with a paused visualizer. -/
def pausedApp : AppState :=
  { mode_configs := MODE_CONFIGS
    current_mode := some "quick"
    visualizer := some pausedVis
    data := sampleData
    title := quickCfg.title
    status := "일시정지됨 (시작 버튼으로 재개)"
    controls := mkControls false }

/-- A visualizer mid-run in basic mode, wrapping an in-flight producer. -/
def runningVis : Visualizer :=
  { mkVisualizer [4, 2, 7] with
      is_running := true
      current_generator := some { arr := [4, 2, 7], algo := some "bubble", pos := 1 } }

/-- A concrete application state in mode `basic` with a running sort. -/
def basicApp : AppState :=
  { mode_configs := MODE_CONFIGS
    current_mode := some "basic"
    visualizer := some runningVis
    data := [4, 2, 7]
    title := basicCfg.title
    status := "실행 중: bubble"
    controls := mkControls true }

/-- A concrete freshly constructed application state without a visualizer. -/
def freshApp : AppState :=
  { mode_configs := MODE_CONFIGS
    current_mode := none
    visualizer := none
    data := [3, 1, 2]
    title := ""
    status := ""
    controls := mkControls false }

lemma lookup_basic : List.lookup "basic" MODE_CONFIGS = some basicCfg := rfl

lemma lookup_quick : List.lookup "quick" MODE_CONFIGS = some quickCfg := rfl

lemma lookup_merge : List.lookup "merge" MODE_CONFIGS = some mergeCfg := rfl

lemma lookup_heap : List.lookup "heap" MODE_CONFIGS = some heapCfg := rfl

@[simp] lemma set_step_mode_can_resume (v : Visualizer) (b : Bool) :
    (v.set_step_mode b).can_resume = v.can_resume := rfl

@[simp] lemma set_step_mode_gen (v : Visualizer) (b : Bool) :
    (v.set_step_mode b).current_generator = v.current_generator := rfl

@[simp] lemma set_step_mode_is_running (v : Visualizer) (b : Bool) :
    (v.set_step_mode b).is_running = v.is_running := rfl

/-- C1: for every mode switch and every data regeneration the dataset handed
to the visualizer is the mode's truncation of the master dataset: quick and
merge take the first 8 elements, heap the first 10, basic the whole dataset;
with a 15-element dataset, switching to quick hands exactly the first 8
elements. -/
theorem C1_cap_truncation (s : AppState) (lo : String → Bool)
    (gen : Nat → List Nat) (size : Nat)
    (hcfg : s.mode_configs = MODE_CONFIGS) (hlo : ∀ m, lo m = true) :
    (∃ v, (switchToMode lo "quick" s).1.visualizer = some v ∧
       v.data = s.data.take 8) ∧
    (∃ v, (switchToMode lo "merge" s).1.visualizer = some v ∧
       v.data = s.data.take 8) ∧
    (∃ v, (switchToMode lo "heap" s).1.visualizer = some v ∧
       v.data = s.data.take 10) ∧
    (∃ v, (switchToMode lo "basic" s).1.visualizer = some v ∧
       v.data = s.data) ∧
    (s.visualizer.isSome = true → s.current_mode = some "quick" →
       ∃ r, generateData gen size s = some r ∧
         ∃ v, r.1.visualizer = some v ∧ v.data = (gen size).take 8) ∧
    (s.visualizer.isSome = true → s.current_mode = some "merge" →
       ∃ r, generateData gen size s = some r ∧
         ∃ v, r.1.visualizer = some v ∧ v.data = (gen size).take 8) ∧
    (s.visualizer.isSome = true → s.current_mode = some "heap" →
       ∃ r, generateData gen size s = some r ∧
         ∃ v, r.1.visualizer = some v ∧ v.data = (gen size).take 10) ∧
    (s.visualizer.isSome = true → s.current_mode = some "basic" →
       ∃ r, generateData gen size s = some r ∧
         ∃ v, r.1.visualizer = some v ∧ v.data = gen size) ∧
    (s.data.length = 15 →
       ∃ v, (switchToMode lo "quick" s).1.visualizer = some v ∧
         v.data = s.data.take 8 ∧ v.data.length = 8) := by
  refine ⟨?_, ?_, ?_, ?_, ?_, ?_, ?_, ?_, ?_⟩
  · cases hv : s.visualizer <;>
      simp [switchToMode, hcfg, lookup_quick, quickCfg, stopCurrent, hv, hlo,
        dataToUse, mkVisualizer, QUICK_SORT_MAX_SIZE]
  · cases hv : s.visualizer <;>
      simp [switchToMode, hcfg, lookup_merge, mergeCfg, stopCurrent, hv, hlo,
        dataToUse, mkVisualizer, MERGE_SORT_MAX_SIZE]
  · cases hv : s.visualizer <;>
      simp [switchToMode, hcfg, lookup_heap, heapCfg, stopCurrent, hv, hlo,
        dataToUse, mkVisualizer, HEAP_SORT_MAX_SIZE]
  · cases hv : s.visualizer <;>
      simp [switchToMode, hcfg, lookup_basic, basicCfg, stopCurrent, hv, hlo,
        dataToUse, mkVisualizer]
  · intro hvs hm
    cases hv : s.visualizer with
    | none => rw [hv] at hvs; simp at hvs
    | some v =>
        simp [generateData, hcfg, hm, hv, lookup_quick, quickCfg, dataToUse,
          Visualizer.reset, QUICK_SORT_MAX_SIZE]
  · intro hvs hm
    cases hv : s.visualizer with
    | none => rw [hv] at hvs; simp at hvs
    | some v =>
        simp [generateData, hcfg, hm, hv, lookup_merge, mergeCfg, dataToUse,
          Visualizer.reset, MERGE_SORT_MAX_SIZE]
  · intro hvs hm
    cases hv : s.visualizer with
    | none => rw [hv] at hvs; simp at hvs
    | some v =>
        simp [generateData, hcfg, hm, hv, lookup_heap, heapCfg, dataToUse,
          Visualizer.reset, HEAP_SORT_MAX_SIZE]
  · intro hvs hm
    cases hv : s.visualizer with
    | none => rw [hv] at hvs; simp at hvs
    | some v =>
        simp [generateData, hcfg, hm, hv, lookup_basic, basicCfg, dataToUse,
          Visualizer.reset]
  · intro hlen
    cases hv : s.visualizer <;>
      simp [switchToMode, hcfg, lookup_quick, quickCfg, stopCurrent, hv, hlo,
        dataToUse, mkVisualizer, QUICK_SORT_MAX_SIZE, List.length_take, hlen]

/-- Witness for C1 at a concrete 15-element dataset in mode `quick`. -/
theorem C1_cap_truncation_witness :
    sampleApp.mode_configs = MODE_CONFIGS ∧ sampleApp.data.length = 15 ∧
    (∃ v, (switchToMode (fun _ => true) "quick" sampleApp).1.visualizer = some v ∧
       v.data = sampleApp.data.take 8 ∧ v.data.length = 8) :=
  ⟨rfl, by decide,
    (C1_cap_truncation sampleApp (fun _ => true) (fun n => List.range n) 5 rfl
      (fun _ => rfl)).2.2.2.2.2.2.2.2 (by decide)⟩

/-- C2: on the start intent, when the visualizer can resume, the suspended
producer is kept (not replaced) and no fresh `sort()` is issued; when it
cannot, a fresh `sort()` is issued whose selector argument is the control
panel's algorithm choice exactly in modes with algorithm selection. -/
theorem C2_resume_or_fresh (s : AppState) (v : Visualizer) (m : String)
    (cfg : ModeConfig)
    (hv : s.visualizer = some v) (hm : s.current_mode = some m)
    (hc : List.lookup m s.mode_configs = some cfg) :
    ∃ s' tr, startSort s = some (s', tr) ∧
      (v.can_resume = true →
        (∃ v', s'.visualizer = some v' ∧
           v'.current_generator = v.current_generator) ∧
        Ev.resumeRun ∈ tr ∧ ∀ a, Ev.sortCall a ∉ tr) ∧
      (v.can_resume = false →
        Ev.sortCall
            (if cfg.has_algorithm_selection then some s.controls.algorithm_var
             else none) ∈ tr ∧
        Ev.resumeRun ∉ tr) := by
  cases hcr : v.can_resume with
  | true =>
      have hgen : v.current_generator.isSome = true := by
        unfold Visualizer.can_resume at hcr
        exact ((Bool.and_eq_true _ _).mp hcr).1
      simp only [startSort, hv, hm, hc, Option.bind_eq_bind, Option.some_bind,
        set_step_mode_can_resume, hcr, if_true, set_step_mode_gen, hgen]
      refine ⟨_, _, rfl, ?_, ?_⟩
      · intro _
        refine ⟨⟨_, rfl, rfl⟩, ?_, ?_⟩
        · simp
        · intro a
          simp
      · intro hfalse
        exact absurd hfalse (by simp [hcr])
  | false =>
      cases hsel : cfg.has_algorithm_selection with
      | true =>
          simp only [startSort, hv, hm, hc, Option.bind_eq_bind,
            Option.some_bind, set_step_mode_can_resume, hcr, if_false,
            Bool.false_eq_true, hsel, if_true]
          refine ⟨_, _, rfl, ?_, ?_⟩
          · intro htrue
            exact absurd htrue (by simp [hcr])
          · intro _
            constructor
            · simp [hsel]
            · simp
      | false =>
          simp only [startSort, hv, hm, hc, Option.bind_eq_bind,
            Option.some_bind, set_step_mode_can_resume, hcr, if_false,
            Bool.false_eq_true, hsel, if_true]
          refine ⟨_, _, rfl, ?_, ?_⟩
          · intro htrue
            exact absurd htrue (by simp [hcr])
          · intro _
            constructor
            · simp [hsel]
            · simp

/-- Witness for C2 at a concrete paused state in mode `quick`. -/
theorem C2_resume_or_fresh_witness :
    pausedApp.visualizer = some pausedVis ∧
    pausedApp.current_mode = some "quick" ∧
    List.lookup "quick" pausedApp.mode_configs = some quickCfg ∧
    (∃ s' tr, startSort pausedApp = some (s', tr) ∧
      (pausedVis.can_resume = true →
        (∃ v', s'.visualizer = some v' ∧
           v'.current_generator = pausedVis.current_generator) ∧
        Ev.resumeRun ∈ tr ∧ ∀ a, Ev.sortCall a ∉ tr) ∧
      (pausedVis.can_resume = false →
        Ev.sortCall
            (if quickCfg.has_algorithm_selection then
               some pausedApp.controls.algorithm_var
             else none) ∈ tr ∧
        Ev.resumeRun ∉ tr)) :=
  ⟨rfl, rfl, rfl,
    C2_resume_or_fresh pausedApp pausedVis "quick" quickCfg rfl rfl rfl⟩

/-- C3: switching to a mode id absent from the registry leaves the whole
application state unchanged and performs no effect at all (in particular no
`stop()` reaches the current visualizer: the trace is empty). -/
theorem C3_unknown_mode_noop (s : AppState) (lo : String → Bool) (m : String)
    (h : List.lookup m s.mode_configs = none) :
    switchToMode lo m s = (s, []) := by
  simp [switchToMode, h]

/-- Witness for C3 at the concrete unknown mode id `bogus`. -/
theorem C3_unknown_mode_noop_witness :
    List.lookup "bogus" sampleApp.mode_configs = none ∧
    switchToMode (fun _ => true) "bogus" sampleApp = (sampleApp, []) :=
  ⟨by decide,
    C3_unknown_mode_noop sampleApp (fun _ => true) "bogus" (by decide)⟩

/-- C4: when the visualizer module of a registry mode fails to load, the
switch recovers with a "not implemented" placeholder status instead of
propagating: the active visualizer stays the previous one (merely stopped
by the pre-try `stop()`), the control panel object, dataset and registry
are untouched, and the trace shows only the pre-failure actions followed by
the canvas placeholder and the status write — no visualizer or control
panel is constructed. -/
theorem C4_load_failure_nonfatal (s : AppState) (lo : String → Bool)
    (m mod : String) (cfg : ModeConfig)
    (hc : List.lookup m s.mode_configs = some cfg)
    (hmod : cfg.module = some mod) (hlo : lo mod = false) :
    (switchToMode lo m s).1.status = notImplStatus cfg.title ∧
    (switchToMode lo m s).1.visualizer = ((stopCurrent s).1).visualizer ∧
    (switchToMode lo m s).1.controls = s.controls ∧
    (switchToMode lo m s).1.data = s.data ∧
    (switchToMode lo m s).1.mode_configs = s.mode_configs ∧
    (switchToMode lo m s).1.current_mode = some m ∧
    (switchToMode lo m s).1.title = cfg.title ∧
    (switchToMode lo m s).2 =
      (stopCurrent s).2 ++
        [Ev.setTitle cfg.title, Ev.clearControls, Ev.clearCanvas,
         Ev.drawPlaceholder cfg.title,
         Ev.setStatus (notImplStatus cfg.title)] := by
  cases hv : s.visualizer <;>
    simp [switchToMode, stopCurrent, hv, hc, hmod, hlo]

/-- Witness for C4: loading failure of the `merge` visualizer module at a
concrete state. -/
theorem C4_load_failure_nonfatal_witness :
    List.lookup "merge" sampleApp.mode_configs = some mergeCfg ∧
    mergeCfg.module = some "visualizers.merge_visualizer" ∧
    (switchToMode (fun _ => false) "merge" sampleApp).1.status =
      notImplStatus mergeCfg.title ∧
    (switchToMode (fun _ => false) "merge" sampleApp).1.visualizer =
      ((stopCurrent sampleApp).1).visualizer ∧
    (switchToMode (fun _ => false) "merge" sampleApp).1.controls =
      sampleApp.controls :=
  ⟨rfl, rfl,
    (C4_load_failure_nonfatal sampleApp (fun _ => false) "merge"
      "visualizers.merge_visualizer" mergeCfg rfl rfl rfl).1,
    (C4_load_failure_nonfatal sampleApp (fun _ => false) "merge"
      "visualizers.merge_visualizer" mergeCfg rfl rfl rfl).2.1,
    (C4_load_failure_nonfatal sampleApp (fun _ => false) "merge"
      "visualizers.merge_visualizer" mergeCfg rfl rfl rfl).2.2.1⟩

/-- C5: the algorithm-change handler writes only the status text — the
visualizer (hence the in-flight producer and its array), dataset, controls,
mode, title and registry are all unchanged; moreover a `sort()` issued
while running leaves the producer untouched, and the selector takes effect
on the fresh producer built by the first `sort()` after a `reset()`. -/
theorem C5_change_algorithm_frame (s : AppState) (a : String) :
    (changeAlgorithm a s).1.visualizer = s.visualizer ∧
    (changeAlgorithm a s).1.data = s.data ∧
    (changeAlgorithm a s).1.controls = s.controls ∧
    (changeAlgorithm a s).1.current_mode = s.current_mode ∧
    (changeAlgorithm a s).1.title = s.title ∧
    (changeAlgorithm a s).1.mode_configs = s.mode_configs ∧
    (∀ v : Visualizer, ∀ sel : Option String, v.is_running = true →
       (v.sort sel).current_generator = v.current_generator) ∧
    (∀ v : Visualizer, ∀ sel : Option String,
       ((v.reset none).sort sel).current_generator =
         some { arr := (v.reset none).data, algo := sel, pos := 0 }) := by
  refine ⟨?_, ?_, ?_, ?_, ?_, ?_, ?_, ?_⟩
  · by_cases h : s.visualizer.isSome = true ∧ s.current_mode = some "basic" <;>
      simp [changeAlgorithm, h]
  · by_cases h : s.visualizer.isSome = true ∧ s.current_mode = some "basic" <;>
      simp [changeAlgorithm, h]
  · by_cases h : s.visualizer.isSome = true ∧ s.current_mode = some "basic" <;>
      simp [changeAlgorithm, h]
  · by_cases h : s.visualizer.isSome = true ∧ s.current_mode = some "basic" <;>
      simp [changeAlgorithm, h]
  · by_cases h : s.visualizer.isSome = true ∧ s.current_mode = some "basic" <;>
      simp [changeAlgorithm, h]
  · by_cases h : s.visualizer.isSome = true ∧ s.current_mode = some "basic" <;>
      simp [changeAlgorithm, h]
  · intro v sel hr
    simp [Visualizer.sort, hr]
  · intro v sel
    simp [Visualizer.sort, Visualizer.reset]

/-- Witness for C5 at a concrete running basic-mode state. -/
theorem C5_change_algorithm_frame_witness :
    (changeAlgorithm "selection" basicApp).1.visualizer = basicApp.visualizer ∧
    (changeAlgorithm "selection" basicApp).1.data = basicApp.data ∧
    runningVis.is_running = true ∧
    (runningVis.sort (some "selection")).current_generator =
      runningVis.current_generator ∧
    ((runningVis.reset none).sort (some "selection")).current_generator =
      some { arr := (runningVis.reset none).data, algo := some "selection", pos := 0 } :=
  ⟨(C5_change_algorithm_frame basicApp "selection").1,
   (C5_change_algorithm_frame basicApp "selection").2.1,
   rfl,
   (C5_change_algorithm_frame basicApp "selection").2.2.2.2.2.2.1 runningVis
     (some "selection") rfl,
   (C5_change_algorithm_frame basicApp "selection").2.2.2.2.2.2.2 runningVis
     (some "selection")⟩

/-- C6 counterexample: switching `freshApp` to `quick` does not perform the
claimed order (construction, wiring, draw, then title-and-status update):
the title write precedes the visualizer construction, so the claimed
sequence is not a subsequence of the actual event trace. -/
theorem C6_counterexample_title_order :
    isSubseqOf
      [Ev.createVis [3, 1, 2], Ev.wireComplete, Ev.drawVis,
       Ev.setTitle "퀵 정렬 (Quick Sort)",
       Ev.setStatus (switchStatus "퀵 정렬 (Quick Sort)" 3)]
      (switchToMode (fun _ => true) "quick" freshApp).2 = false := by decide

/-- C6 (amended): a switch to a registry mode performs, in order: `stop()`
on the current visualizer if one exists, the title update, clearing and
rebuilding of the control panel, construction of the new visualizer from
the truncated dataset, wiring of the completion callback, the initial
draw, and finally the status update with the new mode's title and data
size. -/
theorem C6_switch_sequence (s : AppState) (lo : String → Bool) (m : String)
    (cfg : ModeConfig)
    (hc : List.lookup m s.mode_configs = some cfg)
    (hok : (match cfg.module with | none => true | some mo => lo mo) = true) :
    (switchToMode lo m s).2 =
      (if s.visualizer.isSome = true then [Ev.stopVis] else []) ++
      [Ev.setTitle cfg.title, Ev.clearControls, Ev.createControls,
       Ev.createVis (dataToUse s.data cfg.max_size), Ev.wireComplete,
       Ev.drawVis,
       Ev.setStatus
         (switchStatus cfg.title (dataToUse s.data cfg.max_size).length)] ∧
    (switchToMode lo m s).1.visualizer =
      some { mkVisualizer (dataToUse s.data cfg.max_size) with
               on_complete_wired := true } ∧
    (switchToMode lo m s).1.title = cfg.title ∧
    (switchToMode lo m s).1.status =
      switchStatus cfg.title (dataToUse s.data cfg.max_size).length := by
  cases hv : s.visualizer <;>
    simp [switchToMode, stopCurrent, hv, hc, hok]

/-- Witness for C6 (amended) at a concrete state with an active visualizer,
switching to `heap`. -/
theorem C6_switch_sequence_witness :
    List.lookup "heap" sampleApp.mode_configs = some heapCfg ∧
    (switchToMode (fun _ => true) "heap" sampleApp).2 =
      (if sampleApp.visualizer.isSome = true then [Ev.stopVis] else []) ++
      [Ev.setTitle heapCfg.title, Ev.clearControls, Ev.createControls,
       Ev.createVis (dataToUse sampleApp.data heapCfg.max_size),
       Ev.wireComplete, Ev.drawVis,
       Ev.setStatus
         (switchStatus heapCfg.title
           (dataToUse sampleApp.data heapCfg.max_size).length)] ∧
    (switchToMode (fun _ => true) "heap" sampleApp).1.title = heapCfg.title :=
  ⟨rfl,
   (C6_switch_sequence sampleApp (fun _ => true) "heap" heapCfg rfl rfl).1,
   (C6_switch_sequence sampleApp (fun _ => true) "heap" heapCfg rfl rfl).2.2.1⟩

lemma switchToMode_configs (lo : String → Bool) (m : String) (s : AppState) :
    (switchToMode lo m s).1.mode_configs = s.mode_configs := by
  unfold switchToMode
  cases hl : List.lookup m s.mode_configs with
  | none => rfl
  | some cfg =>
      cases hv : s.visualizer <;> simp [stopCurrent, hv] <;> split <;> rfl

lemma startSort_configs (s : AppState) (r : AppState × List Ev)
    (h : startSort s = some r) : r.1.mode_configs = s.mode_configs := by
  unfold startSort at h
  cases hv : s.visualizer with
  | none => rw [hv] at h; simp at h; rw [← h]
  | some v =>
      rw [hv] at h
      cases hc : s.current_mode.bind (fun m => List.lookup m s.mode_configs) with
      | none => rw [hc] at h; simp at h
      | some cfg =>
          rw [hc] at h
          by_cases hcr : (v.set_step_mode s.controls.step_mode_var).can_resume = true
          · simp [hcr] at h; rw [← h]
          · simp [hcr] at h
            by_cases hsel : cfg.has_algorithm_selection = true
            · simp [hsel] at h; rw [← h]
            · simp [hsel] at h; rw [← h]

lemma generateData_configs (gen : Nat → List Nat) (n : Nat) (s : AppState)
    (r : AppState × List Ev) (h : generateData gen n s = some r) :
    r.1.mode_configs = s.mode_configs := by
  cases hv : s.visualizer with
  | none => simp [generateData, hv] at h; rw [← h]
  | some v =>
      cases hc : s.current_mode.bind
          (fun m => List.lookup m s.mode_configs) with
      | none => simp [generateData, hv, hc] at h
      | some cfg => simp [generateData, hv, hc] at h; rw [← h]

/-- C7: each status write carrying a data-size figure — after a successful
mode switch, a reset, a data regeneration, and at startup — reports exactly
the length of the array held by the active visualizer at that moment. -/
theorem C7_status_size_matches (s : AppState) (lo : String → Bool)
    (gen : Nat → List Nat) (m : String) (cfg : ModeConfig) (size : Nat)
    (hc : List.lookup m s.mode_configs = some cfg)
    (hok : (match cfg.module with | none => true | some mo => lo mo) = true) :
    (switchToMode lo m s).1.status =
      switchStatus cfg.title (visLen (switchToMode lo m s).1) ∧
    (s.visualizer.isSome = true →
      (resetSort s).1.status = resetStatus (visLen (resetSort s).1)) ∧
    (∀ r, generateData gen size s = some r → s.visualizer.isSome = true →
      r.1.status = generateStatus (visLen r.1)) ∧
    (initApp gen lo).1.status =
      switchStatus basicCfg.title (visLen (initApp gen lo).1) ∧
    ((gen DEFAULT_DATA_SIZE).length = 15 → visLen (initApp gen lo).1 = 15) := by
  refine ⟨?_, ?_, ?_, ?_, ?_⟩
  · cases hv : s.visualizer <;>
      simp [switchToMode, stopCurrent, hv, hc, hok, visLen, mkVisualizer]
  · intro hvs
    cases hv : s.visualizer with
    | none => rw [hv] at hvs; simp at hvs
    | some v => simp [resetSort, hv, visLen, Visualizer.reset]
  · intro r h hvs
    cases hv : s.visualizer with
    | none => rw [hv] at hvs; simp at hvs
    | some v =>
        cases hb : s.current_mode.bind
            (fun mm => List.lookup mm s.mode_configs) with
        | none => simp [generateData, hv, hb] at h
        | some cfg2 =>
            simp [generateData, hv, hb] at h
            rw [← h]
            simp [visLen, Visualizer.reset]
  · simp [initApp, switchToMode, lookup_basic, basicCfg, stopCurrent,
      dataToUse, visLen, mkVisualizer]
  · intro hgen
    simp [initApp, switchToMode, lookup_basic, basicCfg, stopCurrent,
      dataToUse, visLen, mkVisualizer, DEFAULT_DATA_SIZE] at hgen ⊢
    exact hgen

/-- Witness for C7 at a concrete state in mode `quick` with matching
generator. -/
theorem C7_status_size_matches_witness :
    List.lookup "quick" sampleApp.mode_configs = some quickCfg ∧
    (switchToMode (fun _ => true) "quick" sampleApp).1.status =
      switchStatus quickCfg.title
        (visLen (switchToMode (fun _ => true) "quick" sampleApp).1) ∧
    (sampleApp.visualizer.isSome = true →
      (resetSort sampleApp).1.status =
        resetStatus (visLen (resetSort sampleApp).1)) ∧
    ((fun n => List.range n) DEFAULT_DATA_SIZE).length = 15 ∧
    visLen (initApp (fun n => List.range n) (fun _ => true)).1 = 15 :=
  ⟨rfl,
   (C7_status_size_matches sampleApp (fun _ => true) (fun n => List.range n)
     "quick" quickCfg 6 rfl rfl).1,
   (C7_status_size_matches sampleApp (fun _ => true) (fun n => List.range n)
     "quick" quickCfg 6 rfl rfl).2.1,
   by decide,
   (C7_status_size_matches sampleApp (fun _ => true) (fun n => List.range n)
     "quick" quickCfg 6 rfl rfl).2.2.2.2 (by decide)⟩

/-- C8: the registry is initialized to `MODE_CONFIGS` at startup and no
operation of the application ever changes it: every handler's result state
carries the same registry as its input state. -/
theorem C8_registry_immutable (gen : Nat → List Nat) (lo : String → Bool) :
    (initApp gen lo).1.mode_configs = MODE_CONFIGS ∧
    ∀ a : Action, ∀ s : AppState, ∀ r : AppState × List Ev,
      applyAction a s = some r → r.1.mode_configs = s.mode_configs := by
  constructor
  · simp only [initApp]
    exact switchToMode_configs _ _ _
  · intro a s r h
    cases a with
    | switchMode lo' m' =>
        simp [applyAction] at h
        rw [← h]
        exact switchToMode_configs lo' m' s
    | startA => exact startSort_configs s r (by simpa [applyAction] using h)
    | stopA =>
        simp [applyAction] at h
        rw [← h]
        cases hv : s.visualizer <;> simp [stopSort, hv]
    | resetA =>
        simp [applyAction] at h
        rw [← h]
        cases hv : s.visualizer <;> simp [resetSort, hv]
    | stepA =>
        simp [applyAction] at h
        rw [← h]
        cases hv : s.visualizer <;> simp [stepSort, hv]
    | speedA n =>
        simp [applyAction] at h
        rw [← h]
        cases hv : s.visualizer <;> simp [changeSpeed, hv]
    | genA g n =>
        exact generateData_configs g n s r (by simpa [applyAction] using h)
    | algoA a' =>
        simp [applyAction] at h
        rw [← h]
        by_cases hca : s.visualizer.isSome = true ∧ s.current_mode = some "basic" <;>
          simp [changeAlgorithm, hca]

/-- Witness for C8: registry preservation at a concrete stop intent. -/
theorem C8_registry_immutable_witness :
    (initApp (fun n => List.range n) (fun _ => true)).1.mode_configs =
      MODE_CONFIGS ∧
    (stopSort sampleApp).1.mode_configs = sampleApp.mode_configs :=
  ⟨(C8_registry_immutable (fun n => List.range n) (fun _ => true)).1,
   (C8_registry_immutable (fun n => List.range n) (fun _ => true)).2
     Action.stopA sampleApp (stopSort sampleApp) rfl⟩

/-- C9: with no visualizer held (`self.visualizer is None`), each of the
start, stop, reset, step and speed-change handlers is a guarded no-op: the
state is unchanged, no effect is performed, and no exception is raised
(`startSort` returns `some`, never the `none` that models an uncaught
error). -/
theorem C9_no_visualizer_noop (s : AppState) (n : Nat)
    (h : s.visualizer = none) :
    startSort s = some (s, []) ∧ stopSort s = (s, []) ∧
    resetSort s = (s, []) ∧ stepSort s = (s, []) ∧
    changeSpeed n s = (s, []) := by
  refine ⟨?_, ?_, ?_, ?_, ?_⟩ <;>
    simp [startSort, stopSort, resetSort, stepSort, changeSpeed, h]

/-- Witness for C9 at a concrete pre-first-switch state. -/
theorem C9_no_visualizer_noop_witness :
    freshApp.visualizer = none ∧
    startSort freshApp = some (freshApp, []) ∧
    stopSort freshApp = (freshApp, []) ∧
    resetSort freshApp = (freshApp, []) ∧
    stepSort freshApp = (freshApp, []) ∧
    changeSpeed 200 freshApp = (freshApp, []) :=
  ⟨rfl,
   (C9_no_visualizer_noop freshApp 200 rfl).1,
   (C9_no_visualizer_noop freshApp 200 rfl).2.1,
   (C9_no_visualizer_noop freshApp 200 rfl).2.2.1,
   (C9_no_visualizer_noop freshApp 200 rfl).2.2.2.1,
   (C9_no_visualizer_noop freshApp 200 rfl).2.2.2.2⟩

/-- C10: data regeneration stores the full generated dataset in the
Orchestrator's `data` field while handing only the truncated copy to the
active visualizer; a later switch to `basic` (no cap) presents the full
dataset again. -/
theorem C10_master_dataset_full (s : AppState) (gen : Nat → List Nat)
    (size : Nat) (lo : String → Bool) (m : String) (cfg : ModeConfig)
    (hcfg : s.mode_configs = MODE_CONFIGS)
    (hv : s.visualizer.isSome = true)
    (hm : s.current_mode = some m)
    (hc : List.lookup m s.mode_configs = some cfg) :
    ∃ r, generateData gen size s = some r ∧
      r.1.data = gen size ∧
      (∃ v, r.1.visualizer = some v ∧
         v.data = dataToUse (gen size) cfg.max_size) ∧
      (∃ v', (switchToMode lo "basic" r.1).1.visualizer = some v' ∧
         v'.data = gen size) := by
  cases hv2 : s.visualizer with
  | none => rw [hv2] at hv; simp at hv
  | some v =>
      have hb : s.current_mode.bind
          (fun mm => List.lookup mm s.mode_configs) = some cfg := by
        rw [hm]; simpa using hc
      simp only [generateData, hv2, hb]
      refine ⟨_, rfl, rfl, ⟨_, rfl, by simp [Visualizer.reset]⟩, ?_⟩
      simp [switchToMode, hcfg, lookup_basic, basicCfg, stopCurrent,
        dataToUse, mkVisualizer]

/-- Witness for C10: regenerating 12 elements while in mode `quick`, then
switching to `basic`. -/
theorem C10_master_dataset_full_witness :
    sampleApp.mode_configs = MODE_CONFIGS ∧
    sampleApp.visualizer.isSome = true ∧
    sampleApp.current_mode = some "quick" ∧
    (∃ r, generateData (fun n => List.range n) 12 sampleApp = some r ∧
      r.1.data = List.range 12 ∧
      (∃ v, r.1.visualizer = some v ∧
         v.data = dataToUse (List.range 12) quickCfg.max_size) ∧
      (∃ v', (switchToMode (fun _ => true) "basic" r.1).1.visualizer =
          some v' ∧ v'.data = List.range 12)) :=
  ⟨rfl, rfl, rfl,
   C10_master_dataset_full sampleApp (fun n => List.range n) 12
     (fun _ => true) "quick" quickCfg rfl rfl rfl rfl⟩

end SortViz
